import Mathlib

/-!
Verification development for the prescription-reminder bot's scheduling and
escalation core.

The JavaScript source is shallowly embedded as pure Lean functions:

* timestamps are natural numbers counting minutes (one calendar day is 1440
  minutes; the `moment.tz(...).toDate()` call in `getScheduledTime` maps an
  instant to the same instant, so the timezone parameter is dropped);
* the Mongo record store and the two Bull queues are explicit lists inside a
  `SystemState`; side effects (WhatsApp messages, voice notes, Twilio calls,
  `setTimeout` registrations) are accumulated in lists of that state;
* `async` functions that can throw become `Except String` values;
* JavaScript quirks that the control flow depends on are modelled explicitly:
  strict equality between a boolean and a string (`JSVal`), comparison of a
  number with `undefined` (`jsLtNat`), and property lookup on objects that do
  not define the property (`Option`).
-/

/-- A JavaScript value as far as the embedded code needs strict equality:
either a boolean or a string. -/
inductive JSVal where
  | jsBool (b : Bool)
  | jsStr (s : String)
deriving DecidableEq

/-- JavaScript strict equality (the operator written with three equals signs):
values of different runtime types are never equal. -/
def jsStrictEq : JSVal → JSVal → Bool
  | .jsBool a, .jsBool b => a == b
  | .jsStr a, .jsStr b => a == b
  | _, _ => false

/-- JavaScript truthiness of an environment variable: `undefined` and the
empty string are falsy, any other string is truthy. -/
def truthyEnv : Option String → Bool
  | none => false
  | some s => !(s == "")

/-- JavaScript comparison of a number with a possibly-undefined number:
comparing with `undefined` yields `NaN` on the right side, and every
comparison against `NaN` is false. -/
def jsLtNat (a : Nat) : Option Nat → Bool
  | none => false
  | some b => a < b

/-- JavaScript comparison `a > now` where `a` may be `undefined`. -/
def jsGtNat (a : Option Nat) (now : Nat) : Bool :=
  match a with
  | none => false
  | some v => now < v

/- ### Data model (src/models, src/config/constants.js) -/

/-- One time-of-day slot of a recurring schedule definition
(`medication.schedule.times[i]`). -/
structure TimeSlot where
  hour : Nat
  minute : Nat
  dose : Nat
deriving DecidableEq

/-- The recurring schedule definition owned by a medication
(`medication.schedule`). Timestamps are minutes. -/
structure MedSchedule where
  frequency : String
  times : List TimeSlot
  daysOfWeek : List Nat
  dayOfMonth : Nat
  startDate : Option Nat
  endDate : Option Nat
  duration : Nat
deriving DecidableEq

/-- The slice of a medication record the embedded code reads.
`form` models `medication.encryptedData.form`, `critical` models
`medication.medical.criticalMedication`, `adherenceRate` models
`medication.adherence.rate`, `nickname` stands in for `getDisplayName()`. -/
structure Medication where
  id : Nat
  userId : Nat
  schedule : MedSchedule
  form : Option String
  critical : Bool
  adherenceRate : Nat
  nickname : String
deriving DecidableEq

/-- `user.settings.quietHours`. The source stores `start` and `end` as
strings of shape HH:MM and reads the hour with `parseInt(s.split(':')[0])`;
the already-parsed hour is stored here. -/
structure QuietHours where
  enabled : Bool
  startHour : Nat
  endHour : Nat
deriving DecidableEq

/-- `user.settings`. -/
structure UserSettings where
  voiceReminders : Bool
  escalationEnabled : Bool
  quietHours : QuietHours
deriving DecidableEq

/-- One entry of `user.caregivers`. -/
structure Caregiver where
  phoneNumber : String
  relationship : String
deriving DecidableEq

/-- `user.subscription`. -/
structure Subscription where
  type : String
  validUntil : Option Nat
  clinicId : Option Nat
deriving DecidableEq

/-- The slice of a user record the embedded code reads. -/
structure User where
  id : Nat
  whatsappId : String
  phoneNumber : String
  language : String
  name : String
  settings : UserSettings
  caregivers : List Caregiver
  subscription : Subscription
deriving DecidableEq

/-- `schedule.dose`. -/
structure Dose where
  amount : Nat
  unit : String
deriving DecidableEq

/-- `schedule.escalation` sub-document. -/
structure EscalationInfo where
  level : Nat
  lastEscalatedAt : Option Nat
  caregiverAlerted : Bool
  caregiverAlertedAt : Option Nat
deriving DecidableEq

/-- `schedule.snooze` sub-document. -/
structure SnoozeInfo where
  count : Nat
  untilTime : Option Nat
deriving DecidableEq

/-- A schedule occurrence record (`src/models/Schedule.js`). `reminders`
keeps only the `sentAt` stamps of the pushed reminder entries. -/
structure Schedule where
  id : Nat
  userId : Nat
  medicationId : Nat
  scheduledTime : Nat
  dose : Dose
  status : String
  reminders : List Nat
  escalation : EscalationInfo
  snooze : SnoozeInfo
deriving DecidableEq

/-- `escalation.caregiver` block of an escalation record. -/
structure CaregiverNote where
  notified : Bool
  phoneNumber : String
  relationship : String
  notifiedAt : Nat
deriving DecidableEq

/-- `escalation.resolution` block of an escalation record. -/
structure Resolution where
  resolved : Bool
  resolvedAt : Option Nat
  resolvedBy : Option String
  outcome : Option String
deriving DecidableEq

/-- An escalation record (`src/models/Escalation.js`). -/
structure EscalationRec where
  id : Nat
  userId : Nat
  medicationId : Nat
  scheduleId : Nat
  level : Nat
  type : String
  status : String
  caregiver : Option CaregiverNote
  resolution : Resolution
  criticalMedication : Bool
  adherenceRate : Nat
deriving DecidableEq

/-- A job in the Bull escalation queue. The source job id is the string
`escalation-<scheduleId>-<level>-<Date.now()>`; its timestamp component is
kept as `id`. -/
structure EscJob where
  id : Nat
  scheduleId : Nat
  level : Nat
  scheduledFor : Nat
  state : String
deriving DecidableEq

/-- A job in the Bull reminder queue. The source job id is the string
`reminder-<scheduleId>-<Date.now()>`; its timestamp component is kept as
`id`. The payload stores no medication id — only `scheduleId`,
`isSnoozed` and `scheduledTime`. -/
structure RemJob where
  id : Nat
  scheduleId : Nat
  scheduledTime : Nat
  isSnoozed : Bool
  state : String
deriving DecidableEq

/-- An outbound WhatsApp message (`whatsappService.sendMessage`). -/
structure Message where
  recipient : String
  text : String
deriving DecidableEq

/-- An outbound WhatsApp voice note (`whatsappService.sendVoiceNote`). -/
structure VoiceNote where
  recipient : String
  audioUrl : String
deriving DecidableEq

/-- A placed Twilio voice call (`client.calls.create`). -/
structure CallRec where
  recipient : String
deriving DecidableEq

/-- An armed in-process `setTimeout` registration. -/
structure Timer where
  delayMs : Nat
  scheduleId : Nat
  level : Nat
deriving DecidableEq

/-- The world the embedded code acts on: record store collections, the two
queues, and accumulated external effects. -/
structure SystemState where
  users : List User
  medications : List Medication
  schedules : List Schedule
  escalations : List EscalationRec
  nextEscalationId : Nat
  escQueue : List EscJob
  remQueue : List RemJob
  messages : List Message
  voiceNotes : List VoiceNote
  calls : List CallRec
  timers : List Timer
deriving DecidableEq

/-- Deployment environment and collaborator outcomes: the
`ENABLE_VOICE_CALLS` environment variable, whether the Twilio call and the
caregiver message go through, and the `Math.random()` draw used by
`buildReminderMessage`. -/
structure Env where
  enableVoiceCalls : Option String
  twilioCallSucceeds : Bool
  caregiverSendSucceeds : Bool
  randomIndex : Nat
deriving DecidableEq

/-- `Schedule.findById`. -/
def findSchedule (st : SystemState) (id : Nat) : Option Schedule :=
  st.schedules.find? (fun s => s.id == id)

/-- `User.findById` / `populate('userId')`. -/
def findUser (st : SystemState) (id : Nat) : Option User :=
  st.users.find? (fun u => u.id == id)

/-- `Medication.findById` / `populate('medicationId')`. -/
def findMedication (st : SystemState) (id : Nat) : Option Medication :=
  st.medications.find? (fun m => m.id == id)

/-- `schedule.save()`: write the in-memory document back by id. -/
def saveSchedule (st : SystemState) (sch : Schedule) : SystemState :=
  { st with schedules := st.schedules.map (fun s => if s.id == sch.id then sch else s) }

/-- `escalation.save()`: write the in-memory document back by id. -/
def saveEscalation (st : SystemState) (esc : EscalationRec) : SystemState :=
  { st with escalations := st.escalations.map (fun e => if e.id == esc.id then esc else e) }

/-- Mongoose `Model.updateMany(filter, patch)`: apply the patch to every
record matching the filter (update paths bypass schema validation). -/
def updateMany {α : Type} (filter : α → Bool) (patch : α → α) (l : List α) : List α :=
  l.map (fun x => if filter x then patch x else x)

/-- `CONSTANTS.TIMEOUTS.ESCALATION_DELAY` (15 minutes, in ms). -/
def ESCALATION_DELAY_MS : Nat := 15 * 60 * 1000

/-- `CONSTANTS.LIMITS.MAX_ESCALATION_LEVEL`: the `LIMITS` object in
`src/config` defines only MAX_MEDICATIONS, MAX_REMINDERS_PER_DAY,
MAX_CAREGIVERS, MAX_IMAGE_SIZE and MAX_NICKNAME_LENGTH, so this property
access evaluates to `undefined`. -/
def MAX_ESCALATION_LEVEL : Option Nat := none

namespace ReminderQueue

/-- `ReminderQueue.addReminder`: computes `delay = scheduledTime - now`,
refuses a negative delay (returns `null`, queue untouched), otherwise adds a
delayed job and returns it. -/
def addReminder (now : Nat) (scheduleId : Nat) (scheduledTime : Nat)
    (isSnoozed : Bool) (jobs : List RemJob) : Option RemJob × List RemJob :=
  let delay : Int := (scheduledTime : Int) - (now : Int)
  if delay < 0 then
    (none, jobs)
  else
    let job : RemJob :=
      { id := now, scheduleId := scheduleId, scheduledTime := scheduledTime,
        isSnoozed := isSnoozed, state := "delayed" }
    (some job, jobs ++ [job])

/-- `ReminderQueue.removeByMedicationId`: the source body is only a log call
with the comment that an implementation would require storing the medication
id in the job data; it removes nothing. -/
def removeByMedicationId (_medicationId : Nat) (jobs : List RemJob) : List RemJob :=
  jobs

end ReminderQueue

namespace EscalationQueue

/-- `queue.getJobs(states)`: the jobs currently in one of the given states. -/
def getJobs (states : List String) (jobs : List EscJob) : List EscJob :=
  jobs.filter (fun j => states.contains j.state)

/-- `EscalationQueue.addEscalation`: computes the (possibly negative) delay,
always adds the job and returns it. -/
def addEscalation (now : Nat) (scheduleId : Nat) (level : Nat)
    (scheduledFor : Nat) (jobs : List EscJob) : EscJob × List EscJob :=
  let _delay : Int := (scheduledFor : Int) - (now : Int)
  let job : EscJob :=
    { id := now, scheduleId := scheduleId, level := level,
      scheduledFor := scheduledFor, state := "delayed" }
  (job, jobs ++ [job])

/-- `EscalationQueue.removeByScheduleId`: fetch the delayed and waiting
jobs, keep those whose payload matches the schedule id, and remove each of
them from the queue (removal is by job id). -/
def removeByScheduleId (scheduleId : Nat) (jobs : List EscJob) : List EscJob :=
  let toRemove :=
    (getJobs ["delayed", "waiting"] jobs).filter (fun j => j.scheduleId == scheduleId)
  toRemove.foldl (fun q j => q.filter (fun k => k.id != j.id)) jobs

end EscalationQueue

namespace EscalationService

/-- `EscalationService.getEscalationDelay`: the per-level delay table in ms;
a level outside the table falls back to the level-1 delay. -/
def getEscalationDelay (level : Nat) : Nat :=
  if level == 1 then 30 * 60 * 1000
  else if level == 2 then 15 * 60 * 1000
  else if level == 3 then 15 * 60 * 1000
  else if level == 4 then 10 * 60 * 1000
  else if level == 5 then 5 * 60 * 1000
  else 30 * 60 * 1000

/-- `EscalationService.scheduleEscalation`: enqueue an escalation job due
after the level's configured delay. -/
def scheduleEscalation (now : Nat) (st : SystemState) (scheduleId : Nat)
    (level : Nat) : SystemState :=
  let delay := getEscalationDelay level
  let (_, q) := EscalationQueue.addEscalation now scheduleId level (now + delay) st.escQueue
  { st with escQueue := q }

/-- The patch `cancelEscalation` applies to a pending escalation record:
status `cancelled`, resolution stamped resolved by the user now. Dotted
update paths leave the other resolution fields alone. -/
def cancelPatch (now : Nat) (r : EscalationRec) : EscalationRec :=
  { r with
    status := "cancelled",
    resolution :=
      { r.resolution with
        resolved := true, resolvedAt := some now, resolvedBy := some "user" } }

/-- `EscalationService.cancelEscalation`: remove the not-yet-fired queue
jobs for the occurrence, then mark its pending escalation records cancelled
with a stamped resolution. -/
def cancelEscalation (now : Nat) (st : SystemState) (scheduleId : Nat) : SystemState :=
  let q := EscalationQueue.removeByScheduleId scheduleId st.escQueue
  let recs :=
    updateMany
      (fun r => r.scheduleId == scheduleId && r.status == "pending")
      (cancelPatch now)
      st.escalations
  { st with escQueue := q, escalations := recs }

end EscalationService

namespace SchedulerService

/-- `getDay()` of a minute timestamp: days since epoch shifted so that day 0
is a Thursday, as for the Unix epoch. -/
def weekdayOf (t : Nat) : Nat :=
  (t / 1440 + 4) % 7

/-- `getDate()` (day of month, 1-31) of a minute timestamp, via the standard
civil-from-days conversion. -/
def dayOfMonthOf (t : Nat) : Nat :=
  let z := t / 1440 + 719468
  let era := z / 146097
  let doe := z - era * 146097
  let yoe := (doe - doe / 1460 + doe / 36524 - doe / 146096) / 365
  let doy := doe - (365 * yoe + yoe / 4 - yoe / 100)
  let mp := (5 * doy + 2) / 153
  doy - (153 * mp + 2) / 5 + 1

/-- `SchedulerService.shouldScheduleToday`: daily always qualifies, weekly
when the weekday is configured, monthly when the day of month matches, any
other frequency never. -/
def shouldScheduleToday (med : Medication) (date : Nat) : Bool :=
  if med.schedule.frequency == "daily" then true
  else if med.schedule.frequency == "weekly" then
    med.schedule.daysOfWeek.contains (weekdayOf date)
  else if med.schedule.frequency == "monthly" then
    dayOfMonthOf date == med.schedule.dayOfMonth
  else false

/-- `SchedulerService.getScheduledTime`: `setHours(h, m, 0, 0)` on the walked
calendar day; the `moment.tz` round trip preserves the instant. -/
def getScheduledTime (date : Nat) (slot : TimeSlot) : Nat :=
  (date / 1440) * 1440 + slot.hour * 60 + slot.minute

/-- The calendar days the `while (currentDate <= endDate)` loop of
`createSchedules` visits: starting at the start date and stepping one day
(1440 minutes) while not past the end date. -/
def loopDays (startDate endDate : Nat) : List Nat :=
  if startDate ≤ endDate then
    (List.range ((endDate - startDate) / 1440 + 1)).map (fun i => startDate + 1440 * i)
  else []

/-- Accumulator of the expansion loop: created occurrences, the reminder
queue, and the next fresh record id. -/
structure ExpandAcc where
  schedules : List Schedule
  queue : List RemJob
  nextId : Nat
deriving DecidableEq

/-- One time slot of one walked day inside `createSchedules`: compute the
slot's absolute time, and only if it is strictly in the future create the
occurrence (status pending, dose unit defaulting to "unit") and enqueue its
reminder. -/
def slotStep (med : Medication) (now : Nat) (date : Nat)
    (acc : ExpandAcc) (slot : TimeSlot) : ExpandAcc :=
  let t := getScheduledTime date slot
  if now < t then
    let sch : Schedule :=
      { id := acc.nextId, userId := med.userId, medicationId := med.id,
        scheduledTime := t,
        dose := { amount := slot.dose, unit := med.form.getD "unit" },
        status := "pending", reminders := [],
        escalation := { level := 0, lastEscalatedAt := none,
                        caregiverAlerted := false, caregiverAlertedAt := none },
        snooze := { count := 0, untilTime := none } }
    let (_, q) := ReminderQueue.addReminder now sch.id t false acc.queue
    { schedules := acc.schedules ++ [sch], queue := q, nextId := acc.nextId + 1 }
  else acc

/-- One walked day inside `createSchedules`: if the day qualifies, process
every time slot. -/
def dayStep (med : Medication) (now : Nat) (acc : ExpandAcc) (date : Nat) : ExpandAcc :=
  if shouldScheduleToday med date then
    med.schedule.times.foldl (slotStep med now date) acc
  else acc

/-- The expansion loop of `createSchedules` (the statements after the user
lookup): the start date defaults to the call time, the end date defaults to
start plus `duration` days, and each qualifying day and slot in the
inclusive window yields an occurrence and a queued reminder when its time is
strictly in the future. It is embedded separately because the statement
before it in the source throws, making this loop unreachable. -/
def expandLoop (med : Medication) (now : Nat) : ExpandAcc :=
  let startDate := med.schedule.startDate.getD now
  let endDate := med.schedule.endDate.getD (startDate + med.schedule.duration * 1440)
  (loopDays startDate endDate).foldl (dayStep med now) ⟨[], [], 0⟩

/-- `SchedulerService.createSchedules`: its body begins with
`const user = await User.findById(medication.userId)`, but `User` is neither
imported nor declared anywhere in schedulerService.js (its import list is
Schedule, Medication, reminderQueue, logger and moment), so every call
throws `ReferenceError: User is not defined` before `expandLoop` is reached,
and the catch block logs and rethrows. No occurrence is created and no
reminder job is enqueued. -/
def createSchedules (_med : Medication) (_now : Nat) : Except String ExpandAcc :=
  .error "ReferenceError: User is not defined"

/-- `SchedulerService.pauseMedicationSchedules`: bulk-update the pending
occurrences of the medication to paused, then call the queue's
`removeByMedicationId`. -/
def pauseMedicationSchedules (medicationId : Nat) (st : SystemState) : SystemState :=
  let updated :=
    updateMany
      (fun s => s.medicationId == medicationId && s.status == "pending")
      (fun s => { s with status := "paused" })
      st.schedules
  { st with schedules := updated,
            remQueue := ReminderQueue.removeByMedicationId medicationId st.remQueue }

end SchedulerService

/-- `userSchema.methods.isSubscribed`: premium subscription still valid. -/
def User.isSubscribed (u : User) (now : Nat) : Bool :=
  u.subscription.type == "premium" && jsGtNat u.subscription.validUntil now

namespace EscalationController

/-- `EscalationController.getEscalationType`: the level-to-type lookup with
`unknown` as the fallback of the `||` default. -/
def getEscalationType (level : Nat) : String :=
  if level == 1 then "urgent"
  else if level == 2 then "voice_reminder"
  else if level == 3 then "voice_call"
  else if level == 4 then "caregiver"
  else if level == 5 then "clinic"
  else "unknown"

/-- The `enum` of the `type` path in `escalationSchema`
(`src/models/Escalation.js`). -/
def escalationTypeEnum : List String :=
  ["reminder", "urgent", "voice_call", "caregiver", "clinic"]

/-- `Escalation.create`: mongoose validates the document against the schema
(level between 1 and 5, type in the enum) and rejects it with a validation
error otherwise; on success the record starts in the default status
`pending`. -/
def escalationCreate (st : SystemState) (userId medicationId scheduleId level : Nat)
    (type : String) (criticalMedication : Bool) (adherenceRate : Nat) :
    Except String (EscalationRec × SystemState) :=
  if 1 ≤ level ∧ level ≤ 5 ∧ escalationTypeEnum.contains type then
    let rec_ : EscalationRec :=
      { id := st.nextEscalationId, userId := userId, medicationId := medicationId,
        scheduleId := scheduleId, level := level, type := type,
        status := "pending", caregiver := none,
        resolution := { resolved := false, resolvedAt := none,
                        resolvedBy := none, outcome := none },
        criticalMedication := criticalMedication, adherenceRate := adherenceRate }
    .ok (rec_, { st with escalations := st.escalations ++ [rec_],
                         nextEscalationId := st.nextEscalationId + 1 })
  else
    .error "ValidationError"

/-- `EscalationController.sendUrgentReminder`: send the urgent text with
quick replies to the user. -/
def sendUrgentReminder (st : SystemState) (u : User) (m : Medication)
    (_sch : Schedule) : SystemState :=
  { st with messages :=
      st.messages ++ [{ recipient := u.whatsappId, text := "URGENT REMINDER: " ++ m.nickname }] }

/-- `EscalationController.sendVoiceReminder`: fall back to the urgent text
when the user has voice reminders off; otherwise synthesize audio, send the
voice note and follow with a response-options text. -/
def sendVoiceReminder (st : SystemState) (u : User) (m : Medication)
    (sch : Schedule) : SystemState :=
  if !u.settings.voiceReminders then
    sendUrgentReminder st u m sch
  else
    let st1 : SystemState := { st with voiceNotes :=
        st.voiceNotes ++ [{ recipient := u.whatsappId, audioUrl := "tts-" ++ u.language }] }
    { st1 with messages :=
        st1.messages ++ [{ recipient := u.whatsappId, text := "Please respond:" }] }

/-- The guard of `EscalationController.makeVoiceCall`, exactly as the source
computes it: `!process.env.ENABLE_VOICE_CALLS === 'true'` negates the
environment string first and then strict-compares the boolean with the
string literal. -/
def makeVoiceCallGuard (enableVoiceCalls : Option String) : Bool :=
  jsStrictEq (.jsBool (!truthyEnv enableVoiceCalls)) (.jsStr "true")

/-- `EscalationController.makeVoiceCall`: behind the guard, try to place the
Twilio call; on a placement failure fall back to the voice reminder. -/
def makeVoiceCall (env : Env) (st : SystemState) (u : User) (m : Medication)
    (sch : Schedule) : SystemState :=
  if makeVoiceCallGuard env.enableVoiceCalls then
    sendVoiceReminder st u m sch
  else if env.twilioCallSucceeds then
    { st with calls := st.calls ++ [{ recipient := u.phoneNumber }] }
  else
    sendVoiceReminder st u m sch

/-- `EscalationController.alertCaregiver`: warn and return when no caregiver
is registered; otherwise message the primary caregiver and, when that send
succeeds, stamp the caregiver block on the escalation record and the alert
flags on the schedule (a send failure is caught and leaves everything
untouched). Returns the updated in-memory schedule document. -/
def alertCaregiver (env : Env) (now : Nat) (st : SystemState) (u : User)
    (_m : Medication) (sch : Schedule) (esc : EscalationRec) :
    SystemState × Schedule :=
  match u.caregivers.head? with
  | none => (st, sch)
  | some cg =>
    if env.caregiverSendSucceeds then
      let st1 : SystemState := { st with messages :=
          st.messages ++ [{ recipient := cg.phoneNumber, text := "Caregiver Alert: " ++ u.name }] }
      let note : CaregiverNote :=
        { notified := true, phoneNumber := cg.phoneNumber,
          relationship := cg.relationship, notifiedAt := now }
      let esc1 : EscalationRec := { esc with caregiver := some note }
      let st2 := saveEscalation st1 esc1
      let sch1 := { sch with escalation :=
          { sch.escalation with caregiverAlerted := true, caregiverAlertedAt := some now } }
      (saveSchedule st2 sch1, sch1)
    else (st, sch)

/-- `EscalationController.alertClinic`: warn and return when the user has no
clinic; otherwise (after logging the clinic integration point) send the
final critical-alert text to the user. -/
def alertClinic (st : SystemState) (u : User) (m : Medication)
    (_sch : Schedule) (_esc : EscalationRec) : SystemState :=
  match u.subscription.clinicId with
  | none => st
  | some _ =>
    { st with messages :=
        st.messages ++ [{ recipient := u.whatsappId, text := "CRITICAL ALERT: " ++ m.nickname }] }

/-- `EscalationController.handleEscalation`: re-fetch and guard the
occurrence, create the level's escalation record, run the level action,
stamp the escalation sub-state on the occurrence, and arm the in-process
follow-up timer only when `level < CONSTANTS.LIMITS.MAX_ESCALATION_LEVEL`
(an undefined constant in the source, so the comparison is never true). -/
def handleEscalation (env : Env) (now : Nat) (st : SystemState)
    (scheduleId level : Nat) : Except String SystemState :=
  match findSchedule st scheduleId with
  | none => .ok st
  | some sch =>
    if sch.status != "sent" then .ok st
    else
      match findUser st sch.userId, findMedication st sch.medicationId with
      | some user, some medication =>
        match escalationCreate st user.id medication.id sch.id level
            (getEscalationType level) medication.critical medication.adherenceRate with
        | .error e => .error e
        | .ok (esc, st1) =>
          let (st2, sch2) :=
            if level == 1 then (sendUrgentReminder st1 user medication sch, sch)
            else if level == 2 then (sendVoiceReminder st1 user medication sch, sch)
            else if level == 3 then (makeVoiceCall env st1 user medication sch, sch)
            else if level == 4 then alertCaregiver env now st1 user medication sch esc
            else if level == 5 then (alertClinic st1 user medication sch esc, sch)
            else (st1, sch)
          let sch3 := { sch2 with escalation :=
              { sch2.escalation with level := level, lastEscalatedAt := some now } }
          let st3 := saveSchedule st2 sch3
          if jsLtNat level MAX_ESCALATION_LEVEL then
            .ok { st3 with timers := st3.timers ++
                [{ delayMs := ESCALATION_DELAY_MS, scheduleId := scheduleId, level := level + 1 }] }
          else
            .ok st3
      | _, _ => .error "TypeError"

/-- `EscalationController.checkAndEscalate`: re-fetch the occurrence and
skip when it is resolved; otherwise run the handler at the next level. -/
def checkAndEscalate (env : Env) (now : Nat) (st : SystemState)
    (scheduleId nextLevel : Nat) : Except String SystemState :=
  match findSchedule st scheduleId with
  | none => .ok st
  | some sch =>
    if sch.status != "sent" then .ok st
    else handleEscalation env now st scheduleId nextLevel

end EscalationController

namespace ReminderController

/-- `ReminderController.isQuietHours`: disabled quiet hours never match;
otherwise compare the current local hour against the configured start and
end hours, with the wrapped branch when the window crosses midnight. -/
def isQuietHours (u : User) (now : Nat) : Bool :=
  if !u.settings.quietHours.enabled then false
  else
    let currentHour := now % 1440 / 60
    let start := u.settings.quietHours.startHour
    let stop := u.settings.quietHours.endHour
    if start ≤ stop then
      decide (start ≤ currentHour) && decide (currentHour < stop)
    else
      decide (start ≤ currentHour) || decide (currentHour < stop)

/-- `ReminderController.buildReminderMessage`: one of three phrasings,
chosen by the `Math.random()` draw. -/
def buildReminderMessage (randomIndex : Nat) (name : String) (dose : Dose) : String :=
  let messages := [
    "Time for your " ++ name ++ "! " ++ toString dose.amount ++ " " ++ dose.unit,
    "Medication reminder: " ++ name ++ ". Please take " ++ toString dose.amount ++ " " ++ dose.unit,
    "Do not forget: " ++ name ++ ". " ++ toString dose.amount ++ " " ++ dose.unit]
  messages.getD (randomIndex % 3) ""

/-- `ReminderController.sendTextReminder`: the reminder text with quick
replies. -/
def sendTextReminder (st : SystemState) (u : User) (message : String)
    (_m : Medication) : SystemState :=
  { st with messages := st.messages ++ [{ recipient := u.whatsappId, text := message }] }

/-- `ReminderController.sendVoiceReminder`: synthesized voice note followed
by a text with reply buttons. -/
def sendVoiceReminder (st : SystemState) (u : User) (_message : String) : SystemState :=
  let st1 : SystemState := { st with voiceNotes :=
      st.voiceNotes ++ [{ recipient := u.whatsappId, audioUrl := "tts-" ++ u.language }] }
  { st1 with messages := st1.messages ++ [{ recipient := u.whatsappId, text := "Reply with:" }] }

/-- `ReminderController.sendReminder`: guard on existence and pending
status, drop the firing during quiet hours, otherwise send the reminder
(voice for subscribed voice users, text otherwise), mark the occurrence
sent with a pushed reminder entry, and schedule the level-1 escalation when
the user has escalation enabled. -/
def sendReminder (env : Env) (now : Nat) (st : SystemState)
    (scheduleId : Nat) : Except String SystemState :=
  match findSchedule st scheduleId with
  | none => .ok st
  | some sch =>
    if sch.status != "pending" then .ok st
    else
      match findUser st sch.userId, findMedication st sch.medicationId with
      | some user, some medication =>
        if isQuietHours user now then .ok st
        else
          let message := buildReminderMessage env.randomIndex medication.nickname sch.dose
          let st1 :=
            if user.settings.voiceReminders && user.isSubscribed now then
              sendVoiceReminder st user message
            else
              sendTextReminder st user message medication
          let sch1 := { sch with status := "sent", reminders := sch.reminders ++ [now] }
          let st2 := saveSchedule st1 sch1
          let st3 :=
            if user.settings.escalationEnabled then
              EscalationService.scheduleEscalation now st2 scheduleId 1
            else st2
          .ok st3
      | _, _ => .error "TypeError"

end ReminderController

/- ### Concrete fixtures used by the theorems below -/

/-- A user with a caregiver, no clinic, voice reminders off, escalation on,
quiet hours disabled. -/
def baseUser : User :=
  { id := 1, whatsappId := "wa-1", phoneNumber := "+111", language := "en",
    name := "Pat",
    settings := { voiceReminders := false, escalationEnabled := true,
                  quietHours := { enabled := false, startHour := 22, endHour := 7 } },
    caregivers := [{ phoneNumber := "+222", relationship := "sibling" }],
    subscription := { type := "free", validUntil := none, clinicId := none } }

/-- A daily medication with 08:00 and 20:00 slots and a seven-day duration,
no explicit start or end date. -/
def baseMed : Medication :=
  { id := 1, userId := 1,
    schedule := { frequency := "daily", times := [⟨8, 0, 1⟩, ⟨20, 0, 1⟩],
                  daysOfWeek := [], dayOfMonth := 0,
                  startDate := none, endDate := none, duration := 7 },
    form := some "tablet", critical := false, adherenceRate := 90, nickname := "Med" }

/-- An occurrence of `baseMed` whose reminder has fired (status sent). -/
def sentSchedule : Schedule :=
  { id := 1, userId := 1, medicationId := 1, scheduledTime := 480,
    dose := { amount := 1, unit := "tablet" }, status := "sent", reminders := [],
    escalation := { level := 0, lastEscalatedAt := none,
                    caregiverAlerted := false, caregiverAlertedAt := none },
    snooze := { count := 0, untilTime := none } }

/-- A world holding `baseUser`, `baseMed` and `sentSchedule`, with empty
queues and no effects yet. -/
def baseState : SystemState :=
  { users := [baseUser], medications := [baseMed], schedules := [sentSchedule],
    escalations := [], nextEscalationId := 0, escQueue := [], remQueue := [],
    messages := [], voiceNotes := [], calls := [], timers := [] }

/-- A deployment with `ENABLE_VOICE_CALLS` unset (voice calling disabled)
and collaborators succeeding. -/
def baseEnv : Env :=
  { enableVoiceCalls := none, twilioCallSucceeds := true,
    caregiverSendSucceeds := true, randomIndex := 0 }

/-- `baseUser` with quiet hours enabled on a window wrapping past midnight. -/
def quietUser : User :=
  { baseUser with settings :=
      { baseUser.settings with quietHours :=
          { enabled := true, startHour := 22, endHour := 7 } } }

/-- `sentSchedule` before its reminder has fired. -/
def pendingSchedule : Schedule :=
  { sentSchedule with status := "pending" }

/-- `baseState` for the quiet-hours scenario: pending occurrence, quiet user. -/
def quietState : SystemState :=
  { baseState with users := [quietUser], schedules := [pendingSchedule] }

/-- `baseState` with the occurrence already resolved by the user. -/
def resolvedState : SystemState :=
  { baseState with schedules := [{ sentSchedule with status := "taken" }] }

/-- Escalation-queue fixture for the cancellation theorem: two removable
jobs for occurrence 1, one already-active job for it, one job for another
occurrence. -/
def stC3 : SystemState :=
  { baseState with
    escQueue :=
      [{ id := 10, scheduleId := 1, level := 2, scheduledFor := 900, state := "delayed" },
       { id := 11, scheduleId := 1, level := 3, scheduledFor := 901, state := "waiting" },
       { id := 12, scheduleId := 1, level := 4, scheduledFor := 902, state := "active" },
       { id := 13, scheduleId := 2, level := 2, scheduledFor := 903, state := "delayed" }],
    escalations :=
      [{ id := 0, userId := 1, medicationId := 1, scheduleId := 1, level := 1,
         type := "urgent", status := "pending", caregiver := none,
         resolution := { resolved := false, resolvedAt := none,
                         resolvedBy := none, outcome := none },
         criticalMedication := false, adherenceRate := 90 },
       { id := 1, userId := 1, medicationId := 1, scheduleId := 1, level := 1,
         type := "urgent", status := "sent", caregiver := none,
         resolution := { resolved := false, resolvedAt := none,
                         resolvedBy := none, outcome := none },
         criticalMedication := false, adherenceRate := 90 }] }

/-- The still-active job of `stC3`. -/
def activeJobC3 : EscJob :=
  { id := 12, scheduleId := 1, level := 4, scheduledFor := 902, state := "active" }

/-- The pending escalation record of `stC3`. -/
def pendingRecC3 : EscalationRec :=
  { id := 0, userId := 1, medicationId := 1, scheduleId := 1, level := 1,
    type := "urgent", status := "pending", caregiver := none,
    resolution := { resolved := false, resolvedAt := none,
                    resolvedBy := none, outcome := none },
    criticalMedication := false, adherenceRate := 90 }

/-- The already-sent escalation record of `stC3`. -/
def sentRecC3 : EscalationRec :=
  { id := 1, userId := 1, medicationId := 1, scheduleId := 1, level := 1,
    type := "urgent", status := "sent", caregiver := none,
    resolution := { resolved := false, resolvedAt := none,
                    resolvedBy := none, outcome := none },
    criticalMedication := false, adherenceRate := 90 }

/-- The expansion invariant: every accumulated occurrence and queued
reminder is strictly in the future. -/
def futureOnly (now : Nat) (acc : SchedulerService.ExpandAcc) : Prop :=
  (∀ s ∈ acc.schedules, now < s.scheduledTime) ∧
  (∀ j ∈ acc.queue, now < j.scheduledTime)

/- ### Claim theorems -/

/-- C1: the claim says that after acting on level N (1 ≤ N < 5) of a sent
occurrence the controller enqueues the next level's job into the durable
escalation queue with that level's configured delay. On the code this fails:
running level 1 on a sent occurrence acts (one message sent, one escalation
record created) but leaves the escalation queue empty and arms no timer
either, because the chain-continuation guard compares the level against the
undefined `CONSTANTS.LIMITS.MAX_ESCALATION_LEVEL`. -/
theorem handleEscalation_never_enqueues_next_level_job :
    (EscalationController.handleEscalation baseEnv 1000 baseState 1 1).map
      (fun st => (st.escQueue, st.timers, st.messages.length, st.escalations.length))
      = .ok ([], [], 1, 1) := by
  rfl

/-- C6: the claim says pausing a medication removes every queued reminder
job for it. On the code this fails: pausing medication 7 flips its pending
occurrence to paused but the queued reminder job survives untouched, because
`ReminderQueue.removeByMedicationId` only logs. -/
theorem pauseMedication_leaves_reminder_jobs_queued :
    (SchedulerService.pauseMedicationSchedules 7
        { users := [], medications := [], schedules :=
            [{ sentSchedule with id := 3, medicationId := 7, status := "pending" }],
          escalations := [], nextEscalationId := 0, escQueue := [],
          remQueue := [{ id := 5, scheduleId := 3, scheduledTime := 480,
                         isSnoozed := false, state := "delayed" }],
          messages := [], voiceNotes := [], calls := [], timers := [] }).remQueue
        = [{ id := 5, scheduleId := 3, scheduledTime := 480,
             isSnoozed := false, state := "delayed" }] ∧
    (SchedulerService.pauseMedicationSchedules 7
        { users := [], medications := [], schedules :=
            [{ sentSchedule with id := 3, medicationId := 7, status := "pending" }],
          escalations := [], nextEscalationId := 0, escQueue := [],
          remQueue := [{ id := 5, scheduleId := 3, scheduledTime := 480,
                         isSnoozed := false, state := "delayed" }],
          messages := [], voiceNotes := [], calls := [], timers := [] }).schedules.map
        (fun s => s.status) = ["paused"] := by
  exact ⟨rfl, rfl⟩

/-- C7 counterexample: the claim says the daily two-slot seven-day schedule
expanded at 09:00 on the start day produces exactly 13 occurrences; the code
produces no occurrence list at all, so in particular not one of length 13. -/
theorem daily_seven_day_expansion_creates_nothing :
    (SchedulerService.createSchedules baseMed 540).toOption.map
      (fun acc => acc.schedules.length) ≠ some 13 := by
  decide

/-- C7 amended: expanding that schedule definition at 09:00 on the start day
creates no occurrence and enqueues no reminder job: `createSchedules` throws
`ReferenceError: User is not defined` (the `User` identifier is unbound in
schedulerService.js) before any day-slot combination is examined. -/
theorem daily_seven_day_expansion_throws_reference_error :
    SchedulerService.createSchedules baseMed 540
      = .error "ReferenceError: User is not defined" := by
  rfl

/-- C8: the claim says a voice call is placed iff voice calling is enabled
for the deployment, with the level-2 fallback when it is disabled. On the
code this fails: `!process.env.ENABLE_VOICE_CALLS === 'true'` negates the
string before the strict comparison, a boolean is never strictly equal to a
string, so the disabled-branch is dead for every possible environment value
and the call is attempted even when `ENABLE_VOICE_CALLS` is unset. -/
theorem makeVoiceCall_ignores_disabled_voice_flag :
    (∀ e : Option String, EscalationController.makeVoiceCallGuard e = false) ∧
    (EscalationController.makeVoiceCall baseEnv baseState baseUser baseMed
        sentSchedule).calls = [{ recipient := baseUser.phoneNumber }] := by
  constructor
  · intro e
    cases e <;> rfl
  · rfl

/-- C9: the claim says each level reached creates one escalation record
whose type is the level's name, voice_reminder at level 2. On the code this
fails at level 2: `getEscalationType 2` is voice_reminder but the escalation
schema's type enum lists reminder instead of voice_reminder, so
`Escalation.create` rejects the document and the level-2 handler throws
without creating any record. -/
theorem level_two_escalation_record_rejected_by_schema :
    EscalationController.getEscalationType 2 = "voice_reminder" ∧
    EscalationController.escalationTypeEnum.contains "voice_reminder" = false ∧
    EscalationController.handleEscalation baseEnv 1000 baseState 1 2
      = .error "ValidationError" := by
  refine ⟨rfl, by decide, rfl⟩

/-- C2: if at handling time the occurrence is missing or no longer in
status sent, both the escalation handler and the chain re-check are pure
no-ops returning the world unchanged: no record, no message, no schedule
write, no enqueued or timed follow-up. -/
theorem handleEscalation_noop_when_occurrence_resolved (env : Env) (now : Nat)
    (st : SystemState) (scheduleId level : Nat)
    (h : (findSchedule st scheduleId).all (fun sch => sch.status != "sent") = true) :
    EscalationController.handleEscalation env now st scheduleId level = .ok st ∧
    EscalationController.checkAndEscalate env now st scheduleId level = .ok st := by
  cases hf : findSchedule st scheduleId with
  | none =>
    constructor
    · simp [EscalationController.handleEscalation, hf]
    · simp [EscalationController.checkAndEscalate, hf]
  | some sch =>
    rw [hf] at h
    simp only [Option.all] at h
    constructor
    · simp [EscalationController.handleEscalation, hf, h]
    · simp [EscalationController.checkAndEscalate, hf, h]

/-- C2 witness: on the resolved fixture (status taken), handler and
re-check at level 3 leave the world untouched. -/
theorem handleEscalation_noop_when_occurrence_resolved_witness :
    EscalationController.handleEscalation baseEnv 0 resolvedState 1 3 = .ok resolvedState ∧
    EscalationController.checkAndEscalate baseEnv 0 resolvedState 1 3 = .ok resolvedState :=
  handleEscalation_noop_when_occurrence_resolved baseEnv 0 resolvedState 1 3 (by decide)

/-- C4: a reminder enqueue whose scheduled time is strictly before the
current time computes a negative delay and is refused (no job returned, the
queue unchanged), while an escalation enqueue always appends its job and
returns it, for any scheduled time. -/
theorem addReminder_refuses_past_addEscalation_accepts :
    (∀ (now scheduleId t : Nat) (isSnoozed : Bool) (jobs : List RemJob), t < now →
        ReminderQueue.addReminder now scheduleId t isSnoozed jobs = (none, jobs)) ∧
    (∀ (now scheduleId level t : Nat) (jobs : List EscJob),
        (EscalationQueue.addEscalation now scheduleId level t jobs).2
          = jobs ++ [(EscalationQueue.addEscalation now scheduleId level t jobs).1]) := by
  constructor
  · intro now sid t sn jobs h
    have hneg : ((t : Int) - (now : Int)) < 0 := by omega
    simp [ReminderQueue.addReminder, hneg]
  · intro now sid lvl t jobs
    rfl

/-- C4 witness: a reminder one hour late is refused while an escalation
with the same negative delay is enqueued. -/
theorem addReminder_refuses_past_addEscalation_accepts_witness :
    ReminderQueue.addReminder 100 1 40 false [] = (none, []) ∧
    (EscalationQueue.addEscalation 100 1 2 40 []).2
      = [] ++ [(EscalationQueue.addEscalation 100 1 2 40 []).1] :=
  ⟨addReminder_refuses_past_addEscalation_accepts.1 100 1 40 false [] (by decide),
   addReminder_refuses_past_addEscalation_accepts.2 100 1 2 40 []⟩

/-- C10: when the occurrence exists in status pending and the firing time
falls inside the user's enabled quiet-hours window (wrapping windows
included, as computed by the embedded hour comparison), the reminder firing
is silently dropped: no message, no status change, no escalation scheduled,
no replacement job. -/
theorem sendReminder_quiet_hours_silent_drop (env : Env) (now : Nat)
    (st : SystemState) (scheduleId : Nat) (sch : Schedule) (u : User) (m : Medication)
    (hs : findSchedule st scheduleId = some sch)
    (hp : sch.status = "pending")
    (hu : findUser st sch.userId = some u)
    (hm : findMedication st sch.medicationId = some m)
    (hq : ReminderController.isQuietHours u now = true) :
    ReminderController.sendReminder env now st scheduleId = .ok st := by
  simp [ReminderController.sendReminder, hs, hp, hu, hm, hq]

/-- C10 witness: at 23:00 inside the enabled 22:00-07:00 wrapping window,
the pending occurrence's firing leaves the world untouched. -/
theorem sendReminder_quiet_hours_silent_drop_witness :
    ReminderController.sendReminder baseEnv 1380 quietState 1 = .ok quietState :=
  sendReminder_quiet_hours_silent_drop baseEnv 1380 quietState 1
    pendingSchedule quietUser baseMed (by decide) (by decide) (by decide)
    (by decide) (by decide)

/-- Folding one-by-one removal by job id over a list of jobs to remove
equals a single filter keeping the jobs whose id matches none of them. -/
theorem foldl_remove_eq_filter (l q : List EscJob) :
    l.foldl (fun acc j => acc.filter (fun k => k.id != j.id)) q
      = q.filter (fun k => l.all (fun j => k.id != j.id)) := by
  induction l generalizing q with
  | nil => simp
  | cons j l ih =>
    simp only [List.foldl_cons, ih, List.filter_filter]
    congr 1
    funext k
    simp [Bool.and_comm]

/-- C3: cancelling an occurrence's escalation removes every escalation job
for it still in the delayed or waiting state, rewrites each of its pending
escalation records to cancelled with a user-stamped resolution, and carries
every other record over unchanged. -/
theorem cancelEscalation_removes_jobs_and_cancels_pending (now : Nat)
    (st : SystemState) (scheduleId : Nat) :
    (∀ j ∈ (EscalationService.cancelEscalation now st scheduleId).escQueue,
        j.scheduleId = scheduleId → j.state ≠ "delayed" ∧ j.state ≠ "waiting") ∧
    (∀ r ∈ st.escalations, r.scheduleId = scheduleId → r.status = "pending" →
        EscalationService.cancelPatch now r
          ∈ (EscalationService.cancelEscalation now st scheduleId).escalations) ∧
    (∀ r ∈ st.escalations, ¬(r.scheduleId = scheduleId ∧ r.status = "pending") →
        r ∈ (EscalationService.cancelEscalation now st scheduleId).escalations) := by
  refine ⟨?_, ?_, ?_⟩
  · intro j hj hsid
    have hmem : j ∈ st.escQueue ∧
        ((EscalationQueue.getJobs ["delayed", "waiting"] st.escQueue).filter
            (fun k => k.scheduleId == scheduleId)).all (fun j2 => j.id != j2.id) = true := by
      have := hj
      simp only [EscalationService.cancelEscalation,
        EscalationQueue.removeByScheduleId, foldl_remove_eq_filter] at this
      exact List.mem_filter.mp this
    have hnot : ∀ s, j.state = s → s ∈ (["delayed", "waiting"] : List String) → False := by
      intro s hstate hin
      have hjin : j ∈ (EscalationQueue.getJobs ["delayed", "waiting"] st.escQueue).filter
          (fun k => k.scheduleId == scheduleId) := by
        apply List.mem_filter.mpr
        refine ⟨?_, by simp [hsid]⟩
        apply List.mem_filter.mpr
        refine ⟨hmem.1, ?_⟩
        simp only [hstate]
        simpa using hin
      have := (List.all_eq_true.mp hmem.2) j hjin
      simp at this
    exact ⟨fun hd => hnot _ hd (by simp), fun hw => hnot _ hw (by simp)⟩
  · intro r hr hsid hp
    simp only [EscalationService.cancelEscalation, updateMany]
    apply List.mem_map.mpr
    exact ⟨r, hr, by simp [hsid, hp]⟩
  · intro r hr hn
    simp only [EscalationService.cancelEscalation, updateMany]
    apply List.mem_map.mpr
    refine ⟨r, hr, ?_⟩
    have hfalse : (r.scheduleId == scheduleId && r.status == "pending") = false := by
      rcases not_and_or.mp hn with h | h <;> simp [h]
    simp [hfalse]

/-- C3 witness: on the cancellation fixture, the active job for occurrence 1
survives (and is indeed neither delayed nor waiting), the pending record
reappears cancelled with its stamped resolution, and the sent record is
carried over unchanged. -/
theorem cancelEscalation_removes_jobs_and_cancels_pending_witness :
    (activeJobC3.state ≠ "delayed" ∧ activeJobC3.state ≠ "waiting") ∧
    EscalationService.cancelPatch 99 pendingRecC3
      ∈ (EscalationService.cancelEscalation 99 stC3 1).escalations ∧
    sentRecC3 ∈ (EscalationService.cancelEscalation 99 stC3 1).escalations :=
  ⟨(cancelEscalation_removes_jobs_and_cancels_pending 99 stC3 1).1
      activeJobC3 (by decide) rfl,
   (cancelEscalation_removes_jobs_and_cancels_pending 99 stC3 1).2.1
      pendingRecC3 (by decide) rfl rfl,
   (cancelEscalation_removes_jobs_and_cancels_pending 99 stC3 1).2.2
      sentRecC3 (by decide) (by decide)⟩

/-- A property preserved by every step of a left fold holds of the result. -/
theorem foldl_preserves {α β : Type} (P : β → Prop) (f : β → α → β)
    (hf : ∀ b a, P b → P (f b a)) :
    ∀ (l : List α) (b : β), P b → P (l.foldl f b) := by
  intro l
  induction l with
  | nil => intro b hb; simpa using hb
  | cons a l ih =>
    intro b hb
    simpa using ih (f b a) (hf b a hb)

/-- One slot step preserves the expansion invariant: an occurrence and its
reminder are only added under the strictly-future check. -/
theorem slotStep_preserves_futureOnly (med : Medication) (now date : Nat)
    (acc : SchedulerService.ExpandAcc) (slot : TimeSlot)
    (h : futureOnly now acc) :
    futureOnly now (SchedulerService.slotStep med now date acc slot) := by
  by_cases hlt : now < SchedulerService.getScheduledTime date slot
  · have hnonneg :
        ¬ (((SchedulerService.getScheduledTime date slot : Int) - (now : Int)) < 0) := by
      omega
    have heq : SchedulerService.slotStep med now date acc slot =
        { schedules := acc.schedules ++
            [{ id := acc.nextId, userId := med.userId, medicationId := med.id,
               scheduledTime := SchedulerService.getScheduledTime date slot,
               dose := { amount := slot.dose, unit := med.form.getD "unit" },
               status := "pending", reminders := [],
               escalation := { level := 0, lastEscalatedAt := none,
                               caregiverAlerted := false, caregiverAlertedAt := none },
               snooze := { count := 0, untilTime := none } }],
          queue := acc.queue ++
            [{ id := now, scheduleId := acc.nextId,
               scheduledTime := SchedulerService.getScheduledTime date slot,
               isSnoozed := false, state := "delayed" }],
          nextId := acc.nextId + 1 } := by
      simp [SchedulerService.slotStep, hlt, ReminderQueue.addReminder, hnonneg]
    rw [heq]
    constructor
    · intro s hs
      rcases List.mem_append.mp hs with h1 | h1
      · exact h.1 s h1
      · simp only [List.mem_singleton] at h1
        subst h1
        exact hlt
    · intro j hj
      rcases List.mem_append.mp hj with h1 | h1
      · exact h.2 j h1
      · simp only [List.mem_singleton] at h1
        subst h1
        exact hlt
  · have heq : SchedulerService.slotStep med now date acc slot = acc := by
      simp [SchedulerService.slotStep, hlt]
    rw [heq]
    exact h

/-- One day step preserves the expansion invariant. -/
theorem dayStep_preserves_futureOnly (med : Medication) (now : Nat)
    (acc : SchedulerService.ExpandAcc) (date : Nat)
    (h : futureOnly now acc) :
    futureOnly now (SchedulerService.dayStep med now acc date) := by
  unfold SchedulerService.dayStep
  split
  · exact foldl_preserves (futureOnly now) _
      (fun b a hb => slotStep_preserves_futureOnly med now date b a hb)
      med.schedule.times acc h
  · exact h

/-- The expansion loop as written creates only occurrences, and enqueues
only reminder jobs, whose due timestamp is strictly after the call time;
this is the filtering the spec describes, on the code unreachable. -/
theorem expandLoop_creates_only_future_occurrences (med : Medication) (now : Nat) :
    (∀ s ∈ (SchedulerService.expandLoop med now).schedules, now < s.scheduledTime) ∧
    (∀ j ∈ (SchedulerService.expandLoop med now).queue, now < j.scheduledTime) := by
  have := foldl_preserves (futureOnly now) (SchedulerService.dayStep med now)
    (fun b a hb => dayStep_preserves_futureOnly med now b a hb)
    (SchedulerService.loopDays
      (med.schedule.startDate.getD now)
      ((med.schedule.endDate.getD ((med.schedule.startDate.getD now) + med.schedule.duration * 1440))))
    ⟨[], [], 0⟩ (by constructor <;> simp)
  exact this

/-- On the scenario input the unreachable loop would walk 8 inclusive
calendar days and skip only the past day-0 08:00 slot, yielding 15
occurrences rather than the 13 the spec computes. -/
theorem expandLoop_scenario_yields_fifteen :
    (SchedulerService.expandLoop baseMed 540).schedules.length = 15 ∧
    ((SchedulerService.expandLoop baseMed 540).schedules.map
        (fun s => s.scheduledTime)).contains 480 = false ∧
    ((SchedulerService.expandLoop baseMed 540).schedules.map
        (fun s => s.scheduledTime)).contains 1200 = true := by
  refine ⟨by decide, by decide, by decide⟩

/-- C5: the claim says schedule expansion creates occurrences and enqueues
reminder jobs only for strictly-future due times. On the code expansion
never gets that far: every call to `createSchedules` throws
`ReferenceError: User is not defined` (the `User` identifier is unbound in
schedulerService.js) before the expansion loop, so no occurrence is ever
created and no job is ever enqueued by it. -/
theorem createSchedules_always_throws_reference_error :
    ∀ (med : Medication) (now : Nat),
      SchedulerService.createSchedules med now
        = .error "ReferenceError: User is not defined" := by
  intro med now
  rfl
